import Mathlib

/-! Verification of the cargame driving demo's core: the vehicle dynamics
integrator (`BasicPhysicsSimulation.update` in `src/gameLogic.js`) and the
reactive audio layer (`AudioManager.update`, in `src/audioManager.js` and its
variant with `stopSound`).  The physics is embedded over the real numbers;
vector and quaternion operations mirror the three.js methods the source calls
(`Vector3.length`, `normalize`, `multiplyScalar`, `add`, `dot`, `setLength`,
`applyQuaternion`, `Quaternion.multiply`, `setFromAxisAngle`).  Notably,
three.js `multiplyScalar` mutates its receiver, and the source reuses the
mutated `forward` vector in the slide-amount dot product; the embedding keeps
that behaviour.  The audio layer does only rational arithmetic and JavaScript
property accesses, so it is embedded computably over the rationals, with
`Except` modelling thrown TypeErrors and an explicit call trace recording the
playback commands issued to the audio-output collaborator. -/

/-- Component triple mirroring `THREE.Vector3`. -/
structure Vec3 where
  x : ℝ
  y : ℝ
  z : ℝ

namespace Vec3

/-- three.js `Vector3.add` (componentwise sum). -/
def add (a b : Vec3) : Vec3 := ⟨a.x + b.x, a.y + b.y, a.z + b.z⟩

/-- three.js `Vector3.multiplyScalar`. -/
def multiplyScalar (a : Vec3) (s : ℝ) : Vec3 := ⟨a.x * s, a.y * s, a.z * s⟩

/-- three.js `Vector3.dot`. -/
def dot (a b : Vec3) : ℝ := a.x * b.x + a.y * b.y + a.z * b.z

/-- three.js `Vector3.lengthSq`. -/
def lengthSq (a : Vec3) : ℝ := a.x * a.x + a.y * a.y + a.z * a.z

/-- three.js `Vector3.length`. -/
noncomputable def length (a : Vec3) : ℝ := Real.sqrt a.lengthSq

/-- three.js `Vector3.normalize`: `divideScalar(length || 1)` — the zero vector
is divided by 1, everything else by its length. -/
noncomputable def normalize (a : Vec3) : Vec3 :=
  a.multiplyScalar (1 / (if a.length = 0 then 1 else a.length))

/-- three.js `Vector3.setLength`: normalize then rescale. -/
noncomputable def setLength (a : Vec3) (l : ℝ) : Vec3 :=
  a.normalize.multiplyScalar l

theorem lengthSq_nonneg (a : Vec3) : 0 ≤ a.lengthSq := by
  unfold lengthSq
  nlinarith [mul_self_nonneg a.x, mul_self_nonneg a.y, mul_self_nonneg a.z]

theorem length_nonneg (a : Vec3) : 0 ≤ a.length := Real.sqrt_nonneg _

theorem length_sq_eq (a : Vec3) : a.length ^ 2 = a.lengthSq := by
  unfold length; exact Real.sq_sqrt a.lengthSq_nonneg

theorem length_le_of_sq_le {a : Vec3} {c : ℝ} (hc : 0 ≤ c)
    (h : a.lengthSq ≤ c ^ 2) : a.length ≤ c := by
  have h1 : a.length ≤ Real.sqrt (c ^ 2) := Real.sqrt_le_sqrt h
  rwa [Real.sqrt_sq hc] at h1

theorem lengthSq_multiplyScalar (a : Vec3) (s : ℝ) :
    (a.multiplyScalar s).lengthSq = s ^ 2 * a.lengthSq := by
  simp only [multiplyScalar, lengthSq]; ring

theorem length_multiplyScalar (a : Vec3) (s : ℝ) :
    (a.multiplyScalar s).length = |s| * a.length := by
  unfold length
  rw [lengthSq_multiplyScalar, Real.sqrt_mul (sq_nonneg s), Real.sqrt_sq_eq_abs]

/-- Cauchy–Schwarz for the three-component dot product. -/
theorem abs_dot_le (a b : Vec3) : |a.dot b| ≤ a.length * b.length := by
  have hsq : (a.dot b) ^ 2 ≤ a.lengthSq * b.lengthSq := by
    unfold dot lengthSq
    nlinarith [sq_nonneg (a.x * b.y - a.y * b.x), sq_nonneg (a.x * b.z - a.z * b.x),
      sq_nonneg (a.y * b.z - a.z * b.y)]
  have h1 : |a.dot b| = Real.sqrt ((a.dot b) ^ 2) := (Real.sqrt_sq_eq_abs _).symm
  rw [h1]
  calc Real.sqrt ((a.dot b) ^ 2) ≤ Real.sqrt (a.lengthSq * b.lengthSq) :=
        Real.sqrt_le_sqrt hsq
    _ = a.length * b.length := by
        rw [Real.sqrt_mul a.lengthSq_nonneg]; rfl

theorem lengthSq_add (a b : Vec3) :
    (a.add b).lengthSq = a.lengthSq + 2 * a.dot b + b.lengthSq := by
  simp only [add, lengthSq, dot]; ring

/-- Triangle inequality for `Vec3.add`. -/
theorem length_add_le (a b : Vec3) : (a.add b).length ≤ a.length + b.length := by
  apply length_le_of_sq_le (add_nonneg a.length_nonneg b.length_nonneg)
  rw [lengthSq_add]
  have h1 : a.dot b ≤ |a.dot b| := le_abs_self _
  have h2 := abs_dot_le a b
  have h3 : a.length ^ 2 = a.lengthSq := a.length_sq_eq
  have h4 : b.length ^ 2 = b.lengthSq := b.length_sq_eq
  nlinarith

theorem length_normalize_le_one (a : Vec3) : a.normalize.length ≤ 1 := by
  unfold normalize
  rw [length_multiplyScalar]
  by_cases h : a.length = 0
  · simp [h]
  · have hpos : 0 < a.length := lt_of_le_of_ne a.length_nonneg (Ne.symm h)
    rw [if_neg h, abs_of_nonneg (by positivity)]
    rw [one_div, inv_mul_cancel₀ h]

theorem length_setLength_le (a : Vec3) {l : ℝ} (hl : 0 ≤ l) :
    (a.setLength l).length ≤ l := by
  unfold setLength
  rw [length_multiplyScalar, abs_of_nonneg hl]
  calc l * a.normalize.length ≤ l * 1 :=
        mul_le_mul_of_nonneg_left a.length_normalize_le_one hl
    _ = l := mul_one l

end Vec3

/-- Quaternion mirroring `THREE.Quaternion`. -/
structure Quat where
  x : ℝ
  y : ℝ
  z : ℝ
  w : ℝ

namespace Quat

/-- Squared norm of a quaternion. -/
def normSq (q : Quat) : ℝ := q.x * q.x + q.y * q.y + q.z * q.z + q.w * q.w

/-- three.js `Quaternion.multiply` (Hamilton product, `this * q`). -/
def multiply (a b : Quat) : Quat :=
  ⟨a.x * b.w + a.w * b.x + a.y * b.z - a.z * b.y,
   a.y * b.w + a.w * b.y + a.z * b.x - a.x * b.z,
   a.z * b.w + a.w * b.z + a.x * b.y - a.y * b.x,
   a.w * b.w - a.x * b.x - a.y * b.y - a.z * b.z⟩

/-- three.js `Quaternion.setFromAxisAngle` (axis assumed normalized). -/
noncomputable def setFromAxisAngle (axis : Vec3) (angle : ℝ) : Quat :=
  ⟨axis.x * Real.sin (angle / 2), axis.y * Real.sin (angle / 2),
   axis.z * Real.sin (angle / 2), Real.cos (angle / 2)⟩

theorem normSq_multiply (a b : Quat) :
    (a.multiply b).normSq = a.normSq * b.normSq := by
  simp only [multiply, normSq]; ring

theorem normSq_setFromAxisAngle_y (angle : ℝ) :
    (setFromAxisAngle ⟨0, 1, 0⟩ angle).normSq = 1 := by
  simp only [setFromAxisAngle, normSq]
  have h := Real.sin_sq_add_cos_sq (angle / 2)
  nlinarith [h]

end Quat

namespace Vec3

/-- three.js `Vector3.applyQuaternion`: the sandwich product `q v conj q`
restricted to a pure-imaginary vector. -/
def applyQuaternion (v : Vec3) (q : Quat) : Vec3 :=
  let ix := q.w * v.x + q.y * v.z - q.z * v.y
  let iy := q.w * v.y + q.z * v.x - q.x * v.z
  let iz := q.w * v.z + q.x * v.y - q.y * v.x
  let iw := -q.x * v.x - q.y * v.y - q.z * v.z
  ⟨ix * q.w + iw * (-q.x) + iy * (-q.z) - iz * (-q.y),
   iy * q.w + iw * (-q.y) + iz * (-q.x) - ix * (-q.z),
   iz * q.w + iw * (-q.z) + ix * (-q.y) - iy * (-q.x)⟩

theorem lengthSq_applyQuaternion (v : Vec3) (q : Quat) :
    (v.applyQuaternion q).lengthSq = q.normSq ^ 2 * v.lengthSq := by
  simp only [applyQuaternion, lengthSq, Quat.normSq]; ring

theorem length_applyQuaternion_unit (v : Vec3) {q : Quat} (hq : q.normSq = 1) :
    (v.applyQuaternion q).length = v.length := by
  unfold length
  rw [lengthSq_applyQuaternion, hq]; norm_num

end Vec3

namespace BasicPhysicsSimulation

/-- `this.acceleration = 0.015` in the `BasicPhysicsSimulation` constructor. -/
def acceleration : ℝ := 0.015

/-- `this.deceleration = 0.98`. -/
def deceleration : ℝ := 0.98

/-- `this.brakingDeceleration = 0.95`. -/
def brakingDeceleration : ℝ := 0.95

/-- `this.maxSpeed = 0.5`. -/
def maxSpeed : ℝ := 0.5

/-- `this.turnSpeed = 0.05`. -/
def turnSpeed : ℝ := 0.05

/-- `this.grip = 0.85`. -/
def grip : ℝ := 0.85

/-- Per-tick input consumed by `BasicPhysicsSimulation.update`. -/
structure InputFrame where
  throttle : ℝ
  steering : ℝ
  brake : Bool

/-- Mutable fields of `BasicPhysicsSimulation` threaded through `update`. -/
structure VehicleState where
  velocity : Vec3
  angularVelocity : ℝ
  position : Vec3
  rotation : Quat
  wheelRotation : ℝ
  suspensionHeight : ℝ
  lastCollisionTime : ℝ

/-- Snapshot returned by `update` (the object literal at the end of the
method).  Boolean classifications are embedded as propositions over the
reals. -/
structure DerivedState where
  position : Vec3
  rotation : Quat
  speed : ℝ
  isSkidding : Prop
  isSuspensionActive : Prop
  hasCollision : Prop
  wheelRotation : ℝ

section PhysicsDefs

open scoped Classical

/-- `BasicPhysicsSimulation.update(input)`, translated statement by statement.
`now` stands for `Date.now()` (read twice in the method body; both reads
happen inside one synchronous call, so they are modelled as one value).
three.js `multiplyScalar` mutates its receiver, so when the throttle is
nonzero the `forward` vector read by the slide-amount dot product is the
throttle-scaled one, exactly as the JavaScript executes. -/
noncomputable def update (s : VehicleState) (input : InputFrame) (now : ℝ) :
    VehicleState × DerivedState :=
  let forward0 := Vec3.applyQuaternion ⟨0, 0, 1⟩ s.rotation
  let speed := s.velocity.length
  let normalizedVelocity := s.velocity.normalize
  let forward := if input.throttle ≠ 0 then
      forward0.multiplyScalar (input.throttle * acceleration) else forward0
  let velocity1 := if input.throttle ≠ 0 then s.velocity.add forward else s.velocity
  let dotProduct := forward.dot normalizedVelocity
  let slideAmount := 1 - |dotProduct|
  let currentDeceleration := if input.brake then brakingDeceleration else deceleration
  let velocity2 := velocity1.multiplyScalar (currentDeceleration - slideAmount * (1 - grip))
  let angularVelocity1 := if input.steering ≠ 0 ∧ speed > 0.001 then
      s.angularVelocity + input.steering * turnSpeed * (1 - speed / maxSpeed * 0.5)
    else s.angularVelocity
  let angularVelocity2 := angularVelocity1 * 0.95
  let rotation1 := s.rotation.multiply (Quat.setFromAxisAngle ⟨0, 1, 0⟩ (-angularVelocity2))
  let velocity3 := if speed > maxSpeed then velocity2.setLength maxSpeed else velocity2
  let positionMoved := s.position.add velocity3
  let suspensionHeight1 := Real.sin (now * 0.01) * 0.02 * speed
  let position1 : Vec3 := ⟨positionMoved.x, 0 + |suspensionHeight1| + 1, positionMoved.z⟩
  let hasCollision : Prop := False
  let isCollisionNew : Prop := hasCollision ∧ now - s.lastCollisionTime > 500
  let lastCollisionTime1 := if isCollisionNew then now else s.lastCollisionTime
  let wheelRotation1 := s.wheelRotation + speed * 0.5
  (⟨velocity3, angularVelocity2, position1, rotation1, wheelRotation1,
    suspensionHeight1, lastCollisionTime1⟩,
   ⟨position1, rotation1, speed, slideAmount > 0.5 ∧ speed > 0.1,
    |suspensionHeight1| > 0.01, isCollisionNew, wheelRotation1⟩)

/-- The speed read at the top of `update` (`this.velocity.length()`). -/
noncomputable def speedOf (s : VehicleState) : ℝ := s.velocity.length

/-- The orientation is a unit quaternion (`this.rotation` starts as the
identity and is only ever composed with unit axis-angle rotations). -/
def unitQuat (q : Quat) : Prop := q.normSq = 1

/-- The `forward` vector before the mutation: the world z axis rotated by the
current orientation. -/
noncomputable def forwardOf (s : VehicleState) : Vec3 :=
  Vec3.applyQuaternion ⟨0, 0, 1⟩ s.rotation

/-- The `forward` vector at the time the slide-amount dot product reads it:
scaled in place by `throttle * acceleration` whenever the throttle branch
ran. -/
noncomputable def mutatedForward (s : VehicleState) (input : InputFrame) : Vec3 :=
  if input.throttle ≠ 0 then
    (forwardOf s).multiplyScalar (input.throttle * acceleration) else forwardOf s

/-- `slideAmount` as `update` computes it. -/
noncomputable def slideAmountOf (s : VehicleState) (input : InputFrame) : ℝ :=
  1 - |(mutatedForward s input).dot s.velocity.normalize|

/-- `slideAmount` as the specification words it: `1 - |dot(forward,
normalizedVelocity)|` with `forward` the unit heading vector of step 1. -/
noncomputable def slideAmountSpec (s : VehicleState) : ℝ :=
  1 - |(forwardOf s).dot s.velocity.normalize|

/-- Velocity after the throttle branch (`this.velocity.add(accelerationForce)`;
the added force is the mutated `forward`). -/
noncomputable def velocityAfterThrottle (s : VehicleState) (input : InputFrame) : Vec3 :=
  if input.throttle ≠ 0 then s.velocity.add (mutatedForward s input) else s.velocity

/-- `currentDeceleration`: the braking constant exactly when `input.brake`. -/
noncomputable def currentDecelOf (input : InputFrame) : ℝ :=
  if input.brake then brakingDeceleration else deceleration

/-- Deceleration trigger as claim C7 words it: braking constant when braking
or neutral throttle is active. -/
noncomputable def claimedDecelC7 (input : InputFrame) : ℝ :=
  if input.brake = true ∨ input.throttle = 0 then brakingDeceleration else deceleration

theorem update_velocity (s : VehicleState) (input : InputFrame) (now : ℝ) :
    (update s input now).1.velocity =
      if speedOf s > maxSpeed then
        ((velocityAfterThrottle s input).multiplyScalar
          (currentDecelOf input - slideAmountOf s input * (1 - grip))).setLength maxSpeed
      else
        (velocityAfterThrottle s input).multiplyScalar
          (currentDecelOf input - slideAmountOf s input * (1 - grip)) := rfl

theorem update_angularVelocity (s : VehicleState) (input : InputFrame) (now : ℝ) :
    (update s input now).1.angularVelocity =
      (if input.steering ≠ 0 ∧ speedOf s > 0.001 then
        s.angularVelocity + input.steering * turnSpeed * (1 - speedOf s / maxSpeed * 0.5)
      else s.angularVelocity) * 0.95 := rfl

theorem update_rotation (s : VehicleState) (input : InputFrame) (now : ℝ) :
    (update s input now).1.rotation =
      s.rotation.multiply (Quat.setFromAxisAngle ⟨0, 1, 0⟩
        (-(update s input now).1.angularVelocity)) := rfl

theorem update_derived_speed (s : VehicleState) (input : InputFrame) (now : ℝ) :
    (update s input now).2.speed = speedOf s := rfl

theorem update_isSkidding (s : VehicleState) (input : InputFrame) (now : ℝ) :
    (update s input now).2.isSkidding =
      (slideAmountOf s input > 0.5 ∧ speedOf s > 0.1) := rfl

theorem update_isSuspensionActive (s : VehicleState) (input : InputFrame) (now : ℝ) :
    (update s input now).2.isSuspensionActive =
      (|Real.sin (now * 0.01) * 0.02 * speedOf s| > 0.01) := rfl

theorem update_hasCollision_def (s : VehicleState) (input : InputFrame) (now : ℝ) :
    (update s input now).2.hasCollision =
      (False ∧ now - s.lastCollisionTime > 500) := rfl

theorem update_lastCollisionTime (s : VehicleState) (input : InputFrame) (now : ℝ) :
    (update s input now).1.lastCollisionTime = s.lastCollisionTime := by
  show (if (False ∧ now - s.lastCollisionTime > 500) then now else s.lastCollisionTime)
      = s.lastCollisionTime
  rw [if_neg]
  simp

end PhysicsDefs

end BasicPhysicsSimulation

namespace BasicPhysicsSimulation

theorem forwardOf_length (s : VehicleState) (hq : unitQuat s.rotation) :
    (forwardOf s).length = 1 := by
  unfold forwardOf
  rw [Vec3.length_applyQuaternion_unit _ hq]
  unfold Vec3.length Vec3.lengthSq
  norm_num

theorem mutatedForward_length (s : VehicleState) (i : InputFrame)
    (hq : unitQuat s.rotation) :
    (mutatedForward s i).length =
      if i.throttle ≠ 0 then |i.throttle| * acceleration else 1 := by
  unfold mutatedForward
  have hf : (forwardOf s).length = 1 := forwardOf_length s hq
  by_cases h : i.throttle ≠ 0
  · rw [if_pos h, if_pos h, Vec3.length_multiplyScalar, hf, mul_one, abs_mul,
      abs_of_pos (by norm_num [acceleration] : (0:ℝ) < acceleration)]
  · rw [if_neg h, if_neg h, hf]

theorem slideAmount_bounds (s : VehicleState) (i : InputFrame)
    (hq : unitQuat s.rotation) (ht : |i.throttle| ≤ 1) :
    0 ≤ slideAmountOf s i ∧ slideAmountOf s i ≤ 1 ∧
      (i.throttle ≠ 0 → 0.985 ≤ slideAmountOf s i) := by
  have hd := Vec3.abs_dot_le (mutatedForward s i) s.velocity.normalize
  have hmf := mutatedForward_length s i hq
  have hnv := Vec3.length_normalize_le_one s.velocity
  have hnvnn := Vec3.length_nonneg s.velocity.normalize
  have hmfnn := Vec3.length_nonneg (mutatedForward s i)
  have hdnn : 0 ≤ |(mutatedForward s i).dot s.velocity.normalize| := abs_nonneg _
  have hmle : (mutatedForward s i).length ≤ 1 := by
    rw [hmf]
    by_cases h : i.throttle ≠ 0
    · rw [if_pos h]
      calc |i.throttle| * acceleration ≤ 1 * acceleration := by
            apply mul_le_mul_of_nonneg_right ht
            norm_num [acceleration]
        _ ≤ 1 := by norm_num [acceleration]
    · rw [if_neg h]
  have habs1 : |(mutatedForward s i).dot s.velocity.normalize| ≤ 1 := by
    calc |(mutatedForward s i).dot s.velocity.normalize|
        ≤ (mutatedForward s i).length * s.velocity.normalize.length := hd
      _ ≤ 1 * 1 := mul_le_mul hmle hnv hnvnn (by norm_num)
      _ = 1 := by norm_num
  refine ⟨by unfold slideAmountOf; linarith, by unfold slideAmountOf; linarith, ?_⟩
  intro h
  have habs2 : |(mutatedForward s i).dot s.velocity.normalize| ≤ 0.015 := by
    have hm15 : (mutatedForward s i).length ≤ 0.015 := by
      rw [hmf, if_pos h]
      calc |i.throttle| * acceleration ≤ 1 * acceleration := by
            apply mul_le_mul_of_nonneg_right ht
            norm_num [acceleration]
        _ = 0.015 := by norm_num [acceleration]
    calc |(mutatedForward s i).dot s.velocity.normalize|
        ≤ (mutatedForward s i).length * s.velocity.normalize.length := hd
      _ ≤ 0.015 * 1 := mul_le_mul hm15 hnv hnvnn (by norm_num)
      _ = 0.015 := by norm_num
  unfold slideAmountOf
  linarith

theorem factor_bounds (s : VehicleState) (i : InputFrame)
    (hq : unitQuat s.rotation) (ht : |i.throttle| ≤ 1) :
    0.8 ≤ currentDecelOf i - slideAmountOf s i * (1 - grip) ∧
      currentDecelOf i - slideAmountOf s i * (1 - grip) ≤ 0.98 ∧
      (i.throttle ≠ 0 →
        currentDecelOf i - slideAmountOf s i * (1 - grip) ≤ 0.83225) := by
  obtain ⟨hs0, hs1, hs985⟩ := slideAmount_bounds s i hq ht
  have hcd : brakingDeceleration ≤ currentDecelOf i ∧ currentDecelOf i ≤ deceleration := by
    unfold currentDecelOf
    by_cases h : i.brake <;>
      simp [h, brakingDeceleration, deceleration] <;> norm_num
  obtain ⟨hcd1, hcd2⟩ := hcd
  rw [brakingDeceleration] at hcd1
  rw [deceleration] at hcd2
  refine ⟨by rw [grip]; nlinarith, by rw [grip]; nlinarith, fun h => ?_⟩
  have := hs985 h
  rw [grip]
  nlinarith

/-- After `update`, the velocity left in the state never exceeds `maxSpeed`:
either the clamp rescales it to `maxSpeed`, or the deceleration factor keeps
it below.  Requires a unit orientation and a throttle in `[-1, 1]`. -/
theorem post_speed_le (s : VehicleState) (i : InputFrame) (now : ℝ)
    (hq : unitQuat s.rotation) (ht : |i.throttle| ≤ 1) :
    speedOf (update s i now).1 ≤ maxSpeed := by
  show (update s i now).1.velocity.length ≤ maxSpeed
  rw [update_velocity]
  by_cases hsp : speedOf s > maxSpeed
  · rw [if_pos hsp]
    exact Vec3.length_setLength_le _ (by norm_num [maxSpeed])
  · rw [if_neg hsp]
    push_neg at hsp
    rw [Vec3.length_multiplyScalar]
    obtain ⟨hf1, hf2, hf3⟩ := factor_bounds s i hq ht
    have hfabs : |currentDecelOf i - slideAmountOf s i * (1 - grip)| =
        currentDecelOf i - slideAmountOf s i * (1 - grip) :=
      abs_of_nonneg (by linarith)
    rw [hfabs]
    by_cases h : i.throttle ≠ 0
    · have hv1 : (velocityAfterThrottle s i).length ≤ 0.515 := by
        unfold velocityAfterThrottle
        rw [if_pos h]
        calc (s.velocity.add (mutatedForward s i)).length
            ≤ s.velocity.length + (mutatedForward s i).length :=
              Vec3.length_add_le _ _
          _ ≤ 0.5 + 0.015 := by
              apply add_le_add
              · exact le_trans hsp (by norm_num [maxSpeed])
              · rw [mutatedForward_length s i hq, if_pos h]
                calc |i.throttle| * acceleration ≤ 1 * acceleration := by
                      apply mul_le_mul_of_nonneg_right ht
                      norm_num [acceleration]
                  _ = 0.015 := by norm_num [acceleration]
          _ = 0.515 := by norm_num
      have hvnn := Vec3.length_nonneg (velocityAfterThrottle s i)
      calc (currentDecelOf i - slideAmountOf s i * (1 - grip)) *
            (velocityAfterThrottle s i).length
          ≤ 0.83225 * 0.515 := by
            apply mul_le_mul (hf3 h) hv1 hvnn (by norm_num)
        _ ≤ maxSpeed := by norm_num [maxSpeed]
    · have hv1 : (velocityAfterThrottle s i).length ≤ 0.5 := by
        unfold velocityAfterThrottle
        rw [if_neg h]
        exact le_trans hsp (by norm_num [maxSpeed])
      have hvnn := Vec3.length_nonneg (velocityAfterThrottle s i)
      calc (currentDecelOf i - slideAmountOf s i * (1 - grip)) *
            (velocityAfterThrottle s i).length
          ≤ 0.98 * 0.5 := by
            apply mul_le_mul hf2 hv1 hvnn (by norm_num)
        _ ≤ maxSpeed := by norm_num [maxSpeed]

/-- The input frame `GameLogic.update` produces when no key is down:
`throttle=0, steering=0, brake=false`. -/
def zeroInput : InputFrame := ⟨0, 0, false⟩

theorem zero_speed_geometric (s : VehicleState) (now : ℝ)
    (hq : unitQuat s.rotation) (hsp : speedOf s ≤ maxSpeed) :
    speedOf (update s zeroInput now).1 ≤ 0.98 * speedOf s := by
  show (update s zeroInput now).1.velocity.length ≤ 0.98 * speedOf s
  rw [update_velocity, if_neg (not_lt.mpr hsp), Vec3.length_multiplyScalar]
  obtain ⟨hf1, hf2, _⟩ := factor_bounds s zeroInput hq (by norm_num [zeroInput])
  have hfabs : |currentDecelOf zeroInput - slideAmountOf s zeroInput * (1 - grip)| =
      currentDecelOf zeroInput - slideAmountOf s zeroInput * (1 - grip) :=
    abs_of_nonneg (by linarith)
  rw [hfabs]
  have hv1 : velocityAfterThrottle s zeroInput = s.velocity := by
    unfold velocityAfterThrottle
    rw [if_neg (by norm_num [zeroInput])]
  rw [hv1]
  have hvnn := Vec3.length_nonneg s.velocity
  exact mul_le_mul hf2 (le_refl _) hvnn (by norm_num)

theorem zero_speed_nonincreasing (s : VehicleState) (now : ℝ)
    (hq : unitQuat s.rotation) :
    speedOf (update s zeroInput now).1 ≤ speedOf s := by
  by_cases hsp : speedOf s ≤ maxSpeed
  · calc speedOf (update s zeroInput now).1 ≤ 0.98 * speedOf s :=
        zero_speed_geometric s now hq hsp
      _ ≤ 1 * speedOf s := by
          apply mul_le_mul_of_nonneg_right (by norm_num) (Vec3.length_nonneg _)
      _ = speedOf s := one_mul _
  · push_neg at hsp
    calc speedOf (update s zeroInput now).1 ≤ maxSpeed :=
        post_speed_le s zeroInput now hq (by norm_num [zeroInput])
      _ ≤ speedOf s := le_of_lt hsp

theorem zero_av_step (s : VehicleState) (now : ℝ) :
    (update s zeroInput now).1.angularVelocity = s.angularVelocity * 0.95 := by
  rw [update_angularVelocity, if_neg]
  simp [zeroInput]

theorem unit_step (s : VehicleState) (i : InputFrame) (now : ℝ)
    (hq : unitQuat s.rotation) : unitQuat (update s i now).1.rotation := by
  show (update s i now).1.rotation.normSq = 1
  rw [update_rotation, Quat.normSq_multiply, Quat.normSq_setFromAxisAngle_y, hq, mul_one]

/-- The state after `n` calls of `update` with a fixed input, the `k`-th call
happening at wall-clock time `now k`. -/
noncomputable def trajectory (s0 : VehicleState) (i : InputFrame) (now : ℕ → ℝ) :
    ℕ → VehicleState
  | 0 => s0
  | n + 1 => (update (trajectory s0 i now n) i (now n)).1

theorem trajectory_unit (s0 : VehicleState) (i : InputFrame) (now : ℕ → ℝ)
    (hq : unitQuat s0.rotation) : ∀ n, unitQuat (trajectory s0 i now n).rotation := by
  intro n
  induction n with
  | zero => exact hq
  | succ k ih => exact unit_step _ _ _ ih

theorem trajectory_speed_bound (s0 : VehicleState) (now : ℕ → ℝ)
    (hq : unitQuat s0.rotation) :
    ∀ n, speedOf (trajectory s0 zeroInput now (n + 1)) ≤ 0.98 ^ n * maxSpeed := by
  intro n
  induction n with
  | zero =>
      have h := post_speed_le (trajectory s0 zeroInput now 0) zeroInput (now 0)
        (trajectory_unit s0 zeroInput now hq 0) (by norm_num [zeroInput])
      simpa [trajectory] using h
  | succ k ih =>
      have hunit := trajectory_unit s0 zeroInput now hq (k + 1)
      have hle : speedOf (trajectory s0 zeroInput now (k + 1)) ≤ maxSpeed := by
        calc speedOf (trajectory s0 zeroInput now (k + 1)) ≤ 0.98 ^ k * maxSpeed := ih
          _ ≤ 1 * maxSpeed := by
              apply mul_le_mul_of_nonneg_right (pow_le_one₀ (by norm_num) (by norm_num))
              norm_num [maxSpeed]
          _ = maxSpeed := one_mul _
      calc speedOf (trajectory s0 zeroInput now (k + 2))
          ≤ 0.98 * speedOf (trajectory s0 zeroInput now (k + 1)) :=
            zero_speed_geometric _ _ hunit hle
        _ ≤ 0.98 * (0.98 ^ k * maxSpeed) := by
            apply mul_le_mul_of_nonneg_left ih (by norm_num)
        _ = 0.98 ^ (k + 1) * maxSpeed := by ring

theorem trajectory_av_formula (s0 : VehicleState) (now : ℕ → ℝ) :
    ∀ n, |(trajectory s0 zeroInput now n).angularVelocity| =
      |s0.angularVelocity| * 0.95 ^ n := by
  intro n
  induction n with
  | zero => simp [trajectory]
  | succ k ih =>
      have hstep : (trajectory s0 zeroInput now (k + 1)).angularVelocity =
          (trajectory s0 zeroInput now k).angularVelocity * 0.95 :=
        zero_av_step _ _
      rw [hstep, abs_mul, ih]
      rw [show |(0.95:ℝ)| = 0.95 by norm_num]
      ring

theorem vec_length_z (a : ℝ) : (Vec3.mk 0 0 a).length = |a| := by
  unfold Vec3.length Vec3.lengthSq
  rw [show ((0:ℝ) * 0 + 0 * 0 + a * a) = a ^ 2 by ring]
  exact Real.sqrt_sq_eq_abs a

theorem vec_length_x (a : ℝ) : (Vec3.mk a 0 0).length = |a| := by
  unfold Vec3.length Vec3.lengthSq
  rw [show (a * a + (0:ℝ) * 0 + 0 * 0) = a ^ 2 by ring]
  exact Real.sqrt_sq_eq_abs a

theorem vec_normalize_z (a : ℝ) (ha : 0 < a) :
    (Vec3.mk 0 0 a).normalize = ⟨0, 0, 1⟩ := by
  unfold Vec3.normalize
  rw [vec_length_z, abs_of_pos ha, if_neg (ne_of_gt ha)]
  unfold Vec3.multiplyScalar
  simp [Vec3.mk.injEq]
  field_simp

theorem vec_normalize_x (a : ℝ) (ha : 0 < a) :
    (Vec3.mk a 0 0).normalize = ⟨1, 0, 0⟩ := by
  unfold Vec3.normalize
  rw [vec_length_x, abs_of_pos ha, if_neg (ne_of_gt ha)]
  unfold Vec3.multiplyScalar
  simp [Vec3.mk.injEq]
  field_simp

/-- A vehicle at rest with the identity orientation. -/
noncomputable def demoRest : VehicleState :=
  ⟨⟨0, 0, 0⟩, 0, ⟨0, 0, 0⟩, ⟨0, 0, 0, 1⟩, 0, 0, 0⟩

/-- Moving straight ahead (velocity aligned with the heading) at speed 0.2. -/
noncomputable def demoAligned : VehicleState :=
  ⟨⟨0, 0, 0.2⟩, 0, ⟨0, 0, 0⟩, ⟨0, 0, 0, 1⟩, 0, 0, 0⟩

/-- Moving straight ahead at speed 0.3. -/
noncomputable def demoAligned3 : VehicleState :=
  ⟨⟨0, 0, 0.3⟩, 0, ⟨0, 0, 0⟩, ⟨0, 0, 0, 1⟩, 0, 0, 0⟩

/-- Velocity orthogonal to the heading, speed 0.2. -/
noncomputable def demoOrtho : VehicleState :=
  ⟨⟨0.2, 0, 0⟩, 0, ⟨0, 0, 0⟩, ⟨0, 0, 0, 1⟩, 0, 0, 0⟩

/-- Velocity orthogonal to the heading, speed 0.05. -/
noncomputable def demoOrthoSlow : VehicleState :=
  ⟨⟨0.05, 0, 0⟩, 0, ⟨0, 0, 0⟩, ⟨0, 0, 0, 1⟩, 0, 0, 0⟩

theorem unit_demoRest : unitQuat demoRest.rotation := by
  show Quat.normSq ⟨0, 0, 0, 1⟩ = 1
  unfold Quat.normSq
  norm_num

theorem unit_demoAligned : unitQuat demoAligned.rotation := by
  show Quat.normSq ⟨0, 0, 0, 1⟩ = 1
  unfold Quat.normSq
  norm_num

/-- C1: for every vehicle state with the maintained unit-orientation invariant
and every input frame with throttle in `[-1, 1]`, after `update` completes the
velocity left in the state has length at most `maxSpeed`, so the speed any
later derived snapshot reports never exceeds `maxSpeed`. -/
theorem speed_clamp_invariant (s : VehicleState) (i : InputFrame) (now : ℝ)
    (hq : unitQuat s.rotation) (ht : |i.throttle| ≤ 1) :
    speedOf (update s i now).1 ≤ maxSpeed ∧
      ∀ (i2 : InputFrame) (now2 : ℝ),
        (update (update s i now).1 i2 now2).2.speed ≤ maxSpeed := by
  refine ⟨post_speed_le s i now hq ht, fun i2 now2 => ?_⟩
  rw [update_derived_speed]
  exact post_speed_le s i now hq ht

theorem speed_clamp_invariant_witness :
    unitQuat demoRest.rotation ∧ |(InputFrame.mk 1 0 false).throttle| ≤ 1 ∧
      (speedOf (update demoRest ⟨1, 0, false⟩ 0).1 ≤ maxSpeed ∧
        ∀ (i2 : InputFrame) (now2 : ℝ),
          (update (update demoRest ⟨1, 0, false⟩ 0).1 i2 now2).2.speed ≤ maxSpeed) :=
  ⟨unit_demoRest, by norm_num,
    speed_clamp_invariant demoRest ⟨1, 0, false⟩ 0 unit_demoRest (by norm_num)⟩

/-- C5: with the zero input frame sustained, the speed and the absolute yaw
rate are non-increasing step to step, and both tend to 0. -/
theorem zero_input_decay (s0 : VehicleState) (now : ℕ → ℝ)
    (hq : unitQuat s0.rotation) :
    (∀ n, speedOf (trajectory s0 zeroInput now (n + 1)) ≤
        speedOf (trajectory s0 zeroInput now n)) ∧
    (∀ n, |(trajectory s0 zeroInput now (n + 1)).angularVelocity| ≤
        |(trajectory s0 zeroInput now n).angularVelocity|) ∧
    Filter.Tendsto (fun n => speedOf (trajectory s0 zeroInput now n))
      Filter.atTop (nhds 0) ∧
    Filter.Tendsto (fun n => |(trajectory s0 zeroInput now n).angularVelocity|)
      Filter.atTop (nhds 0) := by
  refine ⟨fun n => ?_, fun n => ?_, ?_, ?_⟩
  · exact zero_speed_nonincreasing _ _ (trajectory_unit s0 zeroInput now hq n)
  · rw [trajectory_av_formula, trajectory_av_formula]
    have h95 : (0.95:ℝ) ^ (n + 1) ≤ 0.95 ^ n := by
      apply pow_le_pow_of_le_one (by norm_num) (by norm_num)
      omega
    exact mul_le_mul_of_nonneg_left h95 (abs_nonneg _)
  · have hgeo : Filter.Tendsto (fun n : ℕ => (0.98:ℝ) ^ n * maxSpeed)
        Filter.atTop (nhds 0) := by
      have h := tendsto_pow_atTop_nhds_zero_of_lt_one
        (by norm_num : (0:ℝ) ≤ 0.98) (by norm_num : (0.98:ℝ) < 1)
      simpa using h.mul_const maxSpeed
    have hshift : Filter.Tendsto
        (fun n : ℕ => speedOf (trajectory s0 zeroInput now (n + 1)))
        Filter.atTop (nhds 0) :=
      squeeze_zero (fun n => Vec3.length_nonneg _)
        (fun n => trajectory_speed_bound s0 now hq n) hgeo
    exact (Filter.tendsto_add_atTop_iff_nat 1).mp hshift
  · have hgeo : Filter.Tendsto
        (fun n : ℕ => |s0.angularVelocity| * (0.95:ℝ) ^ n)
        Filter.atTop (nhds 0) := by
      have h := tendsto_pow_atTop_nhds_zero_of_lt_one
        (by norm_num : (0:ℝ) ≤ 0.95) (by norm_num : (0.95:ℝ) < 1)
      simpa using h.const_mul |s0.angularVelocity|
    exact hgeo.congr (fun n => (trajectory_av_formula s0 now n).symm)

theorem zero_input_decay_witness :
    unitQuat demoAligned3.rotation ∧
      ((∀ n, speedOf (trajectory demoAligned3 zeroInput (fun _ => 0) (n + 1)) ≤
          speedOf (trajectory demoAligned3 zeroInput (fun _ => 0) n)) ∧
       (∀ n, |(trajectory demoAligned3 zeroInput (fun _ => 0) (n + 1)).angularVelocity| ≤
          |(trajectory demoAligned3 zeroInput (fun _ => 0) n).angularVelocity|) ∧
       Filter.Tendsto
         (fun n => speedOf (trajectory demoAligned3 zeroInput (fun _ => 0) n))
         Filter.atTop (nhds 0) ∧
       Filter.Tendsto
         (fun n => |(trajectory demoAligned3 zeroInput (fun _ => 0) n).angularVelocity|)
         Filter.atTop (nhds 0)) :=
  have hq : unitQuat demoAligned3.rotation := by
    show Quat.normSq ⟨0, 0, 0, 1⟩ = 1
    unfold Quat.normSq
    norm_num
  ⟨hq, zero_input_decay demoAligned3 (fun _ => 0) hq⟩

theorem forwardOf_identity (s : VehicleState) (h : s.rotation = ⟨0, 0, 0, 1⟩) :
    forwardOf s = ⟨0, 0, 1⟩ := by
  unfold forwardOf
  rw [h]
  unfold Vec3.applyQuaternion
  norm_num [Vec3.mk.injEq]

theorem speed_demoRest : speedOf demoRest = 0 := by
  show (Vec3.mk 0 0 0).length = 0
  rw [vec_length_z]
  norm_num

theorem speed_demoAligned : speedOf demoAligned = 0.2 := by
  show (Vec3.mk 0 0 0.2).length = 0.2
  rw [vec_length_z]
  norm_num

theorem speed_demoAligned3 : speedOf demoAligned3 = 0.3 := by
  show (Vec3.mk 0 0 0.3).length = 0.3
  rw [vec_length_z]
  norm_num

theorem speed_demoOrtho : speedOf demoOrtho = 0.2 := by
  show (Vec3.mk 0.2 0 0).length = 0.2
  rw [vec_length_x]
  norm_num

theorem speed_demoOrthoSlow : speedOf demoOrthoSlow = 0.05 := by
  show (Vec3.mk 0.05 0 0).length = 0.05
  rw [vec_length_x]
  norm_num

theorem slideAmount_demoAligned_throttle :
    slideAmountOf demoAligned ⟨1, 0, false⟩ = 0.985 := by
  unfold slideAmountOf mutatedForward
  rw [if_pos (by norm_num : ((⟨1, 0, false⟩ : InputFrame)).throttle ≠ 0)]
  rw [forwardOf_identity demoAligned rfl]
  rw [show demoAligned.velocity = Vec3.mk 0 0 0.2 from rfl]
  rw [vec_normalize_z 0.2 (by norm_num)]
  unfold Vec3.multiplyScalar Vec3.dot acceleration
  norm_num
  rw [abs_of_pos (show (0:ℝ) < 3 / 200 by norm_num)]
  norm_num

theorem slideAmount_demoOrtho :
    slideAmountOf demoOrtho zeroInput = 1 := by
  unfold slideAmountOf mutatedForward
  rw [if_neg (by norm_num [zeroInput] : ¬ zeroInput.throttle ≠ 0)]
  rw [forwardOf_identity demoOrtho rfl]
  rw [show demoOrtho.velocity = Vec3.mk 0.2 0 0 from rfl]
  rw [vec_normalize_x 0.2 (by norm_num)]
  unfold Vec3.dot
  norm_num

theorem slideAmountSpec_demoAligned : slideAmountSpec demoAligned = 0 := by
  unfold slideAmountSpec
  rw [forwardOf_identity demoAligned rfl]
  rw [show demoAligned.velocity = Vec3.mk 0 0 0.2 from rfl]
  rw [vec_normalize_z 0.2 (by norm_num)]
  unfold Vec3.dot
  norm_num

/-- C4 (code bug): at a state whose velocity is perfectly aligned with the
heading, one tick of forward throttle makes `update` report skidding, because
three.js `multiplyScalar` mutated `forward` before the dot product, while the
specified formula `slideAmount = 1 - |dot(forward, normalizedVelocity)|` (unit
heading) gives slide 0 and hence no skid; the orthogonal-velocity boundary
cases of the claim do hold (speed 0.2 skids, speed 0.05 does not). -/
theorem skid_aliasing_code_bug :
    (update demoAligned ⟨1, 0, false⟩ 0).2.isSkidding ∧
    ¬ (slideAmountSpec demoAligned > 0.5 ∧ speedOf demoAligned > 0.1) ∧
    (update demoOrtho zeroInput 0).2.isSkidding ∧
    ¬ (update demoOrthoSlow zeroInput 0).2.isSkidding := by
  refine ⟨?_, ?_, ?_, ?_⟩
  · rw [update_isSkidding]
    rw [slideAmount_demoAligned_throttle, speed_demoAligned]
    norm_num
  · rw [slideAmountSpec_demoAligned]
    norm_num
  · rw [update_isSkidding]
    rw [slideAmount_demoOrtho, speed_demoOrtho]
    norm_num
  · rw [update_isSkidding]
    rw [speed_demoOrthoSlow]
    norm_num

/-- C6: with steering fixed at 1, the yaw-rate increment added by one step is
strictly smaller when the speed entering the step is larger; equivalently,
starting from the same yaw rate, the faster state leaves `update` with the
strictly smaller yaw rate. -/
theorem steering_authority_monotone (s1 s2 : VehicleState) (now1 now2 : ℝ)
    (hav : s1.angularVelocity = s2.angularVelocity)
    (h1 : speedOf s1 > 0.001) (h12 : speedOf s1 < speedOf s2) :
    (update s2 ⟨0, 1, false⟩ now2).1.angularVelocity <
      (update s1 ⟨0, 1, false⟩ now1).1.angularVelocity := by
  rw [update_angularVelocity, update_angularVelocity]
  rw [if_pos ⟨by norm_num, lt_trans h1 h12⟩, if_pos ⟨by norm_num, h1⟩]
  rw [hav]
  have hsteer : ((⟨0, 1, false⟩ : InputFrame)).steering = 1 := rfl
  rw [hsteer]
  unfold turnSpeed maxSpeed
  ring_nf
  linarith

theorem steering_authority_monotone_witness :
    demoAligned.angularVelocity = demoAligned3.angularVelocity ∧
    speedOf demoAligned > 0.001 ∧ speedOf demoAligned < speedOf demoAligned3 ∧
    (update demoAligned3 ⟨0, 1, false⟩ 0).1.angularVelocity <
      (update demoAligned ⟨0, 1, false⟩ 0).1.angularVelocity :=
  have hav : demoAligned.angularVelocity = demoAligned3.angularVelocity := rfl
  have h1 : speedOf demoAligned > 0.001 := by rw [speed_demoAligned]; norm_num
  have h12 : speedOf demoAligned < speedOf demoAligned3 := by
    rw [speed_demoAligned, speed_demoAligned3]; norm_num
  ⟨hav, h1, h12, steering_authority_monotone demoAligned demoAligned3 0 0 hav h1 h12⟩

theorem slideAmount_demoAligned_zero :
    slideAmountOf demoAligned zeroInput = 0 := by
  unfold slideAmountOf mutatedForward
  rw [if_neg (by norm_num [zeroInput] : ¬ zeroInput.throttle ≠ 0)]
  rw [forwardOf_identity demoAligned rfl]
  rw [show demoAligned.velocity = Vec3.mk 0 0 0.2 from rfl]
  rw [vec_normalize_z 0.2 (by norm_num)]
  unfold Vec3.dot
  norm_num

/-- C7 counterexample: with `throttle=0, brake=false` (neutral throttle, no
brake) the code keeps the cruise constant 0.98, not the braking constant the
claim's trigger (braking OR neutral throttle) would select: the velocities
differ at an aligned state moving at speed 0.2. -/
theorem decel_trigger_counterexample :
    (update demoAligned zeroInput 0).1.velocity ≠
      demoAligned.velocity.multiplyScalar
        (claimedDecelC7 zeroInput - slideAmountOf demoAligned zeroInput * (1 - grip)) := by
  have hlhs : (update demoAligned zeroInput 0).1.velocity =
      Vec3.mk 0 0 (0.2 * 0.98) := by
    rw [update_velocity]
    rw [if_neg (by rw [speed_demoAligned]; norm_num [maxSpeed])]
    have hv : velocityAfterThrottle demoAligned zeroInput = demoAligned.velocity := by
      unfold velocityAfterThrottle
      rw [if_neg (by norm_num [zeroInput] : ¬ zeroInput.throttle ≠ 0)]
    rw [hv, slideAmount_demoAligned_zero]
    have hcd : currentDecelOf zeroInput = deceleration := by
      unfold currentDecelOf
      rw [if_neg (by norm_num [zeroInput] : ¬ zeroInput.brake = true)]
    rw [hcd]
    rw [show demoAligned.velocity = Vec3.mk 0 0 0.2 from rfl]
    unfold Vec3.multiplyScalar deceleration grip
    norm_num [Vec3.mk.injEq]
  have hrhs : demoAligned.velocity.multiplyScalar
      (claimedDecelC7 zeroInput - slideAmountOf demoAligned zeroInput * (1 - grip)) =
      Vec3.mk 0 0 (0.2 * 0.95) := by
    rw [slideAmount_demoAligned_zero]
    have hcd : claimedDecelC7 zeroInput = brakingDeceleration := by
      unfold claimedDecelC7
      rw [if_pos (show zeroInput.brake = true ∨ zeroInput.throttle = 0 from Or.inr rfl)]
    rw [hcd]
    rw [show demoAligned.velocity = Vec3.mk 0 0 0.2 from rfl]
    unfold Vec3.multiplyScalar brakingDeceleration grip
    norm_num [Vec3.mk.injEq]
  rw [hlhs, hrhs]
  intro h
  have hz := congrArg Vec3.z h
  norm_num at hz

/-- C7 (amended): on every non-clamped step the velocity is scaled by exactly
`currentDeceleration - slideAmount * (1 - grip)`, where `currentDeceleration`
is the braking constant exactly when `brake` is set on this tick's input (a
neutral throttle does not select it) and the cruise constant otherwise, and
`slideAmount` is the value the code computes from the throttle-scaled
`forward` vector. -/
theorem decel_stage_characterization (s : VehicleState) (i : InputFrame) (now : ℝ)
    (hsp : ¬ speedOf s > maxSpeed) :
    (update s i now).1.velocity =
      (velocityAfterThrottle s i).multiplyScalar
        (currentDecelOf i - slideAmountOf s i * (1 - grip)) ∧
    (currentDecelOf i = brakingDeceleration ↔ i.brake = true) ∧
    (currentDecelOf i = deceleration ↔ i.brake = false) := by
  refine ⟨by rw [update_velocity, if_neg hsp], ?_, ?_⟩
  · unfold currentDecelOf brakingDeceleration deceleration
    by_cases h : i.brake
    · simp [h]
    · simp [h]
      norm_num
  · unfold currentDecelOf brakingDeceleration deceleration
    by_cases h : i.brake
    · simp [h]
      norm_num
    · simp [h]

theorem decel_stage_characterization_witness :
    ¬ speedOf demoAligned > maxSpeed ∧
      ((update demoAligned ⟨0, 0, true⟩ 0).1.velocity =
        (velocityAfterThrottle demoAligned ⟨0, 0, true⟩).multiplyScalar
          (currentDecelOf ⟨0, 0, true⟩ -
            slideAmountOf demoAligned ⟨0, 0, true⟩ * (1 - grip)) ∧
       (currentDecelOf ⟨0, 0, true⟩ = brakingDeceleration ↔
         (InputFrame.mk 0 0 true).brake = true) ∧
       (currentDecelOf ⟨0, 0, true⟩ = deceleration ↔
         (InputFrame.mk 0 0 true).brake = false)) :=
  have hsp : ¬ speedOf demoAligned > maxSpeed := by
    rw [speed_demoAligned]
    norm_num [maxSpeed]
  ⟨hsp, decel_stage_characterization demoAligned ⟨0, 0, true⟩ 0 hsp⟩

/-- C8: the derived snapshot never reports a collision (the detector is the
hardcoded `false` stub) and `lastCollisionTime` is never changed by `update`. -/
theorem collision_never_triggers (s : VehicleState) (i : InputFrame) (now : ℝ) :
    ¬ (update s i now).2.hasCollision ∧
      (update s i now).1.lastCollisionTime = s.lastCollisionTime := by
  refine ⟨?_, update_lastCollisionTime s i now⟩
  rw [update_hasCollision_def]
  simp

/-- C10: any derived snapshot whose reported speed is within `maxSpeed` has an
inactive suspension, because the suspension offset is bounded by
`1 * 0.02 * speed <= 0.01`, the activity threshold. -/
theorem suspension_inactive_within_maxSpeed (s : VehicleState) (i : InputFrame)
    (now : ℝ) (hsp : (update s i now).2.speed ≤ maxSpeed) :
    ¬ (update s i now).2.isSuspensionActive := by
  rw [update_isSuspensionActive]
  rw [update_derived_speed] at hsp
  rw [not_lt]
  have hs0 : 0 ≤ speedOf s := Vec3.length_nonneg _
  have hsin : |Real.sin (now * 0.01)| ≤ 1 :=
    abs_le.mpr ⟨Real.neg_one_le_sin _, Real.sin_le_one _⟩
  have h1 : |Real.sin (now * 0.01) * 0.02 * speedOf s| =
      |Real.sin (now * 0.01)| * (0.02 * speedOf s) := by
    rw [abs_mul, abs_mul]
    rw [abs_of_nonneg hs0, show |(0.02:ℝ)| = 0.02 by norm_num]
    ring
  rw [h1]
  have hspeed : speedOf s ≤ 0.5 := by rwa [maxSpeed] at hsp
  calc |Real.sin (now * 0.01)| * (0.02 * speedOf s)
      ≤ 1 * (0.02 * 0.5) := by
        apply mul_le_mul hsin (by nlinarith) (by positivity) (by norm_num)
    _ ≤ 0.01 := by norm_num

theorem suspension_inactive_witness :
    (update demoRest zeroInput 0).2.speed ≤ maxSpeed ∧
      ¬ (update demoRest zeroInput 0).2.isSuspensionActive :=
  have hsp : (update demoRest zeroInput 0).2.speed ≤ maxSpeed := by
    rw [update_derived_speed, speed_demoRest]
    norm_num [maxSpeed]
  ⟨hsp, suspension_inactive_within_maxSpeed demoRest zeroInput 0 hsp⟩

end BasicPhysicsSimulation

namespace AudioManager

/-- The five sound channels loaded by `loadSounds`. -/
inductive Channel where
  | engine
  | tires
  | skidding
  | collision
  | suspension
deriving DecidableEq

/-- A created buffer source node.  `loop` is assigned by `playSound`;
`playing` mirrors the JavaScript property read `source.playing`: no code in
the repository ever assigns it and Web Audio buffer sources define no such
property, so it stays absent (`none`), which is falsy. -/
structure SourceNode where
  loop : Bool
  playing : Option Bool
deriving DecidableEq

/-- One `this.sounds[name]` record: the current source node (null when
stopped or never started) and the gain node's `gain.value`. -/
structure SoundEntry where
  source : Option SourceNode
  gainValue : ℚ
deriving DecidableEq

/-- `this.sounds`: a missing field models a channel whose asset has not (yet)
loaded or whose load failed, so the key was never added. -/
structure SoundTable where
  engine : Option SoundEntry
  tires : Option SoundEntry
  skidding : Option SoundEntry
  collision : Option SoundEntry
  suspension : Option SoundEntry
deriving DecidableEq

def SoundTable.get (t : SoundTable) : Channel → Option SoundEntry
  | Channel.engine => t.engine
  | Channel.tires => t.tires
  | Channel.skidding => t.skidding
  | Channel.collision => t.collision
  | Channel.suspension => t.suspension

def SoundTable.set (t : SoundTable) : Channel → Option SoundEntry → SoundTable
  | Channel.engine, e => { t with engine := e }
  | Channel.tires, e => { t with tires := e }
  | Channel.skidding, e => { t with skidding := e }
  | Channel.collision, e => { t with collision := e }
  | Channel.suspension, e => { t with suspension := e }

theorem SoundTable.get_set_same (t : SoundTable) (c : Channel) (e : Option SoundEntry) :
    (t.set c e).get c = e := by
  cases c <;> rfl

theorem SoundTable.get_set_other (t : SoundTable) (c c2 : Channel)
    (e : Option SoundEntry) (h : c ≠ c2) : (t.set c e).get c2 = t.get c2 := by
  cases c <;> cases c2 <;> first
    | rfl
    | exact absurd rfl h

/-- The fields of the physics `carState` that `AudioManager.update` reads. -/
structure CarSoundState where
  speed : ℚ
  isSkidding : Bool
  isSuspensionActive : Bool
  hasCollision : Bool
deriving DecidableEq

/-- Commands issued to the audio-output collaborator (`source.start`,
`source.stop`, `gain.gain.value` assignments), tagged by channel. -/
inductive AudioCall where
  | start (ch : Channel) (loop : Bool)
  | stop (ch : Channel)
  | setGain (ch : Channel) (value : ℚ)
deriving DecidableEq

/-- The one exception `update` can raise: a TypeError from reading `.source`
or `.gain` on an `undefined` sound entry. -/
inductive JsError where
  | typeError
deriving DecidableEq

/-- JavaScript truthiness of the possibly-undefined `source.playing`. -/
def playingTruthy (o : Option Bool) : Bool := o.getD false

/-- The looped-channel guard `!entry.source || !entry.source.playing`. -/
def notPlayingGuard (e : SoundEntry) : Bool :=
  match e.source with
  | none => true
  | some s => ! playingTruthy s.playing

/-- Models the property accesses `this.sounds[name].source` /
`this.sounds[name].gain` on a possibly-missing entry: a TypeError when the
channel's asset never loaded. -/
def entryOrThrow (t : SoundTable) (c : Channel) : Except JsError SoundEntry :=
  match t.get c with
  | none => Except.error JsError.typeError
  | some e => Except.ok e

/-- `playSound(name, loop)`: a silent no-op when `this.sounds[name]` is
missing; otherwise stop the existing source if there is one, then create,
configure, start and store a new source node. -/
def playSound (t : SoundTable) (name : Channel) (loop : Bool) :
    SoundTable × List AudioCall :=
  match t.get name with
  | none => (t, [])
  | some e =>
      (t.set name (some { e with source := some { loop := loop, playing := none } }),
       (match e.source with
        | none => []
        | some _ => [AudioCall.stop name]) ++ [AudioCall.start name loop])

/-- `stopSound(name)` of the `stopSound` variant (`src/unnamed/part_002`):
optional chaining makes the missing-entry and null-source cases silent
no-ops; otherwise it stops the source and nulls the reference. -/
def stopSound (t : SoundTable) (name : Channel) : SoundTable × List AudioCall :=
  match t.get name with
  | none => (t, [])
  | some e =>
      match e.source with
      | none => (t, [])
      | some _ => (t.set name (some { e with source := none }), [AudioCall.stop name])

/-- `AudioManager.update(carState)` of `src/audioManager.js` (the variant with
neither `isInitialized` nor `stopSound`), property access by property access:
the engine branch and the skidding branch dereference `this.sounds.<name>`
unconditionally, the tires branch only above the speed threshold; the result
is the updated sound table plus the trace of collaborator calls, or the
thrown TypeError. -/
def update (t0 : SoundTable) (car : CarSoundState) :
    Except JsError (SoundTable × List AudioCall) := do
  let e0 ← entryOrThrow t0 Channel.engine
  let (t1, c1) := if notPlayingGuard e0 then playSound t0 Channel.engine true else (t0, [])
  let e1 ← entryOrThrow t1 Channel.engine
  let t2 := t1.set Channel.engine (some { e1 with gainValue := 0.3 + car.speed * 0.7 })
  let c2 := c1 ++ [AudioCall.setGain Channel.engine (0.3 + car.speed * 0.7)]
  let (t4, c4) ← if car.speed > 0.1 then do
      let e ← entryOrThrow t2 Channel.tires
      let (t3, c3) := if notPlayingGuard e then playSound t2 Channel.tires true else (t2, [])
      let e3 ← entryOrThrow t3 Channel.tires
      let g := min (car.speed * 0.5) 1
      Except.ok (t3.set Channel.tires (some { e3 with gainValue := g }),
        c3 ++ [AudioCall.setGain Channel.tires g])
    else Except.ok (t2, ([] : List AudioCall))
  let (t6, c6) ← if car.isSkidding then do
      let e ← entryOrThrow t4 Channel.skidding
      Except.ok (if notPlayingGuard e then playSound t4 Channel.skidding true else (t4, []))
    else do
      let e ← entryOrThrow t4 Channel.skidding
      match e.source with
      | some _ => Except.ok (t4, [AudioCall.stop Channel.skidding])
      | none => Except.ok (t4, ([] : List AudioCall))
  let (t7, c7) := if car.isSuspensionActive then playSound t6 Channel.suspension false
    else (t6, [])
  let (t8, c8) := if car.hasCollision then playSound t7 Channel.collision false
    else (t7, [])
  Except.ok (t8, c2 ++ c4 ++ c6 ++ c7 ++ c8)

/-- The `stopSound` variant's manager also carries `isInitialized`. -/
structure ManagerV2 where
  isInitialized : Bool
  sounds : SoundTable
deriving DecidableEq

/-- `update(carState)` of the `stopSound` variant (`src/unnamed/part_002`):
an uninitialized manager returns immediately; every playing decision is
re-derived from the latest `carState`, below-threshold channels are stopped
through `stopSound`.  `playSound` is called only on the initialized path, so
its own `isInitialized` guard always passes there. -/
def updateV2 (st : ManagerV2) (car : CarSoundState) :
    Except JsError (ManagerV2 × List AudioCall) :=
  if st.isInitialized = false then Except.ok (st, []) else do
    let t0 := st.sounds
    let (t2, c2) ← if car.speed > 0.01 then do
        let e ← entryOrThrow t0 Channel.engine
        let (t1, c1) := if notPlayingGuard e then playSound t0 Channel.engine true
          else (t0, [])
        let e1 ← entryOrThrow t1 Channel.engine
        Except.ok (t1.set Channel.engine
            (some { e1 with gainValue := 0.3 + car.speed * 0.7 }),
          c1 ++ [AudioCall.setGain Channel.engine (0.3 + car.speed * 0.7)])
      else Except.ok (stopSound t0 Channel.engine)
    let (t4, c4) ← if car.speed > 0.1 then do
        let e ← entryOrThrow t2 Channel.tires
        let (t3, c3) := if notPlayingGuard e then playSound t2 Channel.tires true
          else (t2, [])
        let e3 ← entryOrThrow t3 Channel.tires
        let g := min (car.speed * 0.5) 1
        Except.ok (t3.set Channel.tires (some { e3 with gainValue := g }),
          c3 ++ [AudioCall.setGain Channel.tires g])
      else Except.ok (stopSound t2 Channel.tires)
    let (t6, c6) ← if car.isSkidding ∧ car.speed > 0.1 then do
        let e ← entryOrThrow t4 Channel.skidding
        Except.ok (if notPlayingGuard e then playSound t4 Channel.skidding true
          else (t4, []))
      else Except.ok (stopSound t4 Channel.skidding)
    let (t7, c7) := if car.isSuspensionActive ∧ car.speed > 0.05 then
        playSound t6 Channel.suspension false else (t6, [])
    let (t8, c8) := if car.hasCollision then playSound t7 Channel.collision false
      else (t7, [])
    Except.ok ({ st with sounds := t8 }, c2 ++ c4 ++ c6 ++ c7 ++ c8)

/-- Two consecutive `update` calls of the `stopSound` variant with the same
`carState`, with the two call traces concatenated. -/
def updateV2Twice (st : ManagerV2) (car : CarSoundState) :
    Except JsError (ManagerV2 × List AudioCall) :=
  (updateV2 st car).bind fun r =>
    (updateV2 r.1 car).map fun r2 => (r2.1, r.2 ++ r2.2)

/-- Number of `stop` calls addressed to channel `ch` in a trace. -/
def countStop (ch : Channel) (calls : List AudioCall) : ℕ :=
  calls.countP fun c => match c with
    | AudioCall.stop ch2 => decide (ch2 = ch)
    | _ => false

/-- Number of `start` calls addressed to channel `ch` in a trace. -/
def countStart (ch : Channel) (calls : List AudioCall) : ℕ :=
  calls.countP fun c => match c with
    | AudioCall.start ch2 _ => decide (ch2 = ch)
    | _ => false

end AudioManager

namespace AudioManager

theorem stopSound_calls (t : SoundTable) (ch : Channel) :
    (stopSound t ch).2 = [] ∨ (stopSound t ch).2 = [AudioCall.stop ch] := by
  unfold stopSound
  rcases h : t.get ch with _ | e
  · left; rfl
  · rcases hs : e.source with _ | s
    · left; simp [h, hs]
    · right; simp [h, hs]

theorem stopSound_cleared (t : SoundTable) (ch : Channel) :
    ∀ e, (stopSound t ch).1.get ch = some e → e.source = none := by
  unfold stopSound
  rcases h : t.get ch with _ | e0
  · simp [h]
  · rcases hs : e0.source with _ | s
    · simp [h, hs]
    · simp [h, hs, SoundTable.get_set_same]

theorem stopSound_get_other (t : SoundTable) (ch ch2 : Channel) (h : ch ≠ ch2) :
    (stopSound t ch).1.get ch2 = t.get ch2 := by
  unfold stopSound
  rcases hg : t.get ch with _ | e0
  · rfl
  · rcases hs : e0.source with _ | s
    · simp [hg, hs]
    · simp [hg, hs, SoundTable.get_set_other _ _ _ _ h]

theorem stopSound_noop (t : SoundTable) (ch : Channel)
    (h : ∀ e, t.get ch = some e → e.source = none) : stopSound t ch = (t, []) := by
  unfold stopSound
  rcases hg : t.get ch with _ | e0
  · rfl
  · rcases hs : e0.source with _ | s
    · simp [hg, hs]
    · exact absurd (h e0 hg) (by simp [hs])

theorem updateV2_idle (st : ManagerV2) (car : CarSoundState)
    (hinit : st.isInitialized = true) (hspeed : car.speed = 0)
    (hcol : car.hasCollision = false) :
    updateV2 st car = Except.ok
      ({ st with sounds :=
          (stopSound (stopSound (stopSound st.sounds Channel.engine).1
            Channel.tires).1 Channel.skidding).1 },
        (stopSound st.sounds Channel.engine).2 ++
        ((stopSound (stopSound st.sounds Channel.engine).1 Channel.tires).2 ++
        (stopSound (stopSound (stopSound st.sounds Channel.engine).1
          Channel.tires).1 Channel.skidding).2)) := by
  unfold updateV2
  rw [hspeed, hcol]
  rw [if_neg (by rw [hinit]; simp)]
  have h1 : ¬ ((0:ℚ) > 0.01) := by norm_num
  have h2 : ¬ ((0:ℚ) > 0.1) := by norm_num
  have h3 : ¬ ((0:ℚ) > 0.05) := by norm_num
  simp [h1, h2, h3]
  rfl

end AudioManager

namespace AudioManager

theorem stop_idempotent (st : ManagerV2) (car : CarSoundState)
    (hspeed : car.speed = 0) (hcol : car.hasCollision = false) :
    ∃ r, updateV2Twice st car = Except.ok r ∧ ∀ ch, countStop ch r.2 ≤ 1 := by
  obtain ⟨init, snds⟩ := st
  cases init with
  | false =>
      refine ⟨(⟨false, snds⟩, []), ?_, ?_⟩
      · unfold updateV2Twice updateV2
        rfl
      · intro ch
        simp [countStop]
  | true =>
      have hu1 := updateV2_idle ⟨true, snds⟩ car rfl hspeed hcol
      have hu2 := updateV2_idle ⟨true,
          (stopSound (stopSound (stopSound snds Channel.engine).1
            Channel.tires).1 Channel.skidding).1⟩ car rfl hspeed hcol
      have hENE : Channel.skidding ≠ Channel.engine := by decide
      have hTNE : Channel.tires ≠ Channel.engine := by decide
      have hSNT : Channel.skidding ≠ Channel.tires := by decide
      have hengine : ∀ e,
          (stopSound (stopSound (stopSound snds Channel.engine).1
            Channel.tires).1 Channel.skidding).1.get Channel.engine = some e →
            e.source = none := by
        intro e he
        rw [stopSound_get_other _ _ _ hENE, stopSound_get_other _ _ _ hTNE] at he
        exact stopSound_cleared snds Channel.engine e he
      have htires : ∀ e,
          (stopSound (stopSound (stopSound snds Channel.engine).1
            Channel.tires).1 Channel.skidding).1.get Channel.tires = some e →
            e.source = none := by
        intro e he
        rw [stopSound_get_other _ _ _ hSNT] at he
        exact stopSound_cleared _ Channel.tires e he
      have hskid : ∀ e,
          (stopSound (stopSound (stopSound snds Channel.engine).1
            Channel.tires).1 Channel.skidding).1.get Channel.skidding = some e →
            e.source = none :=
        stopSound_cleared _ Channel.skidding
      rw [stopSound_noop _ _ hengine] at hu2
      rw [stopSound_noop _ _ htires] at hu2
      rw [stopSound_noop _ _ hskid] at hu2
      refine ⟨(⟨true,
          (stopSound (stopSound (stopSound snds Channel.engine).1
            Channel.tires).1 Channel.skidding).1⟩,
        (stopSound snds Channel.engine).2 ++
          ((stopSound (stopSound snds Channel.engine).1 Channel.tires).2 ++
          (stopSound (stopSound (stopSound snds Channel.engine).1
            Channel.tires).1 Channel.skidding).2)), ?_, ?_⟩
      · unfold updateV2Twice
        rw [hu1]
        show (updateV2 ⟨true,
            (stopSound (stopSound (stopSound snds Channel.engine).1
              Channel.tires).1 Channel.skidding).1⟩ car).map _ = _
        rw [hu2]
        simp only [Except.map]
        simp
      · intro ch
        rcases stopSound_calls snds Channel.engine with hE | hE <;>
          rcases stopSound_calls (stopSound snds Channel.engine).1 Channel.tires
            with hT | hT <;>
          rcases stopSound_calls (stopSound (stopSound snds Channel.engine).1
            Channel.tires).1 Channel.skidding with hS | hS <;>
          cases ch <;>
          simp [countStop, hE, hT, hS, List.countP_append, List.countP_cons]

end AudioManager

namespace AudioManager

/-- Reduction of a bind on an `ok` result, used to evaluate the model at
concrete loading configurations. -/
theorem ok_bind {e a b : Type} (x : a) (f : a → Except e b) :
    (Except.ok x : Except e a) >>= f = f x := rfl

/-- Reduction of a bind on a thrown error: the exception propagates. -/
theorem error_bind {e a b : Type} (err : e) (f : a → Except e b) :
    (Except.error err : Except e a) >>= f = Except.error err := rfl

/-- Reduction of a map on an `ok` result. -/
theorem map_ok {e a b : Type} (f : a → b) (x : a) :
    (Except.ok x : Except e a).map f = Except.ok (f x) := rfl

/-- A `carState` at rest: `speed=0`, no skid, no suspension, no collision. -/
def idleCar : CarSoundState := ⟨0, false, false, false⟩

/-- A `carState` cruising at `speed=0.2` with no classified events. -/
def movingCar : CarSoundState := ⟨0.2, false, false, false⟩

/-- All five channels loaded; the engine channel already holds a looped
source (it is playing). -/
def enginePlayingSounds : SoundTable :=
  ⟨some ⟨some ⟨true, none⟩, 0.3⟩, some ⟨none, 0⟩, some ⟨none, 0⟩,
    some ⟨none, 0⟩, some ⟨none, 0⟩⟩

/-- All five channels loaded; engine and skidding both hold stale sources
from earlier playback. -/
def skidStaleSounds : SoundTable :=
  ⟨some ⟨some ⟨true, none⟩, 0.3⟩, some ⟨none, 0⟩, some ⟨some ⟨true, none⟩, 0⟩,
    some ⟨none, 0⟩, some ⟨none, 0⟩⟩

/-- No asset has finished loading yet: `this.sounds` is empty. -/
def emptySounds : SoundTable := ⟨none, none, none, none, none⟩

/-- Every asset loaded except the engine, whose fetch or decode failed. -/
def engineFailedSounds : SoundTable :=
  ⟨none, some ⟨none, 0⟩, some ⟨none, 0⟩, some ⟨none, 0⟩, some ⟨none, 0⟩⟩

/-- C2 (code bug): the looped-channel guard reads `source.playing`, a
property never assigned anywhere, so it is always undefined (falsy) and the
guard always passes: with the engine channel's source present, each of two
consecutive `update` calls issues a fresh looped start for the engine — in
the plain variant and in the `stopSound` variant alike — instead of starting
only on a false-to-true transition of the playing flag. -/
theorem engine_restarted_every_tick :
    (enginePlayingSounds.engine.map fun e => e.source.isSome) = some true ∧
    ((update enginePlayingSounds idleCar).map fun r =>
        countStart Channel.engine r.2) = Except.ok 1 ∧
    ((update enginePlayingSounds idleCar).bind fun r =>
        (update r.1 idleCar).map fun r2 => countStart Channel.engine r2.2)
      = Except.ok 1 ∧
    ((updateV2 ⟨true, enginePlayingSounds⟩ movingCar).bind fun r =>
        (updateV2 r.1 movingCar).map fun r2 => countStart Channel.engine r2.2)
      = Except.ok 1 := by
  have hchan : Channel.tires ≠ Channel.engine := by decide
  refine ⟨rfl, ?_, ?_, ?_⟩ <;>
    norm_num [hchan, update, updateV2, enginePlayingSounds, skidStaleSounds, emptySounds,
    engineFailedSounds, idleCar, movingCar, entryOrThrow, SoundTable.get,
    SoundTable.set, notPlayingGuard, playingTruthy, playSound, stopSound,
    countStart, countStop, ok_bind, error_bind, map_ok, Except.bind,
    List.countP_cons, List.countP_nil]

/-- C3 (code bug): `update` is not safe to call with unavailable channels: the
plain variant dereferences `this.sounds.engine.source` before any asset has
loaded and throws a TypeError, and the `stopSound` variant, initialized but
with the engine asset failed, throws the same way once the speed passes the
engine threshold — instead of silently skipping the unavailable channel. -/
theorem update_throws_on_missing_assets :
    update emptySounds idleCar = Except.error JsError.typeError ∧
    updateV2 ⟨true, engineFailedSounds⟩ movingCar = Except.error JsError.typeError := by
  refine ⟨rfl, ?_⟩
  norm_num [update, updateV2, enginePlayingSounds, skidStaleSounds, emptySounds,
    engineFailedSounds, idleCar, movingCar, entryOrThrow, SoundTable.get,
    SoundTable.set, notPlayingGuard, playingTruthy, playSound, stopSound,
    countStart, countStop, ok_bind, error_bind, map_ok, Except.bind,
    List.countP_cons, List.countP_nil]

/-- C9 counterexample: in the plain variant (`src/audioManager.js`) the
skidding stop does not null the stored source, so two consecutive `update`
calls with the same `speed=0` state issue two stop calls against the
already-stopped skidding channel. -/
theorem skidding_stop_repeats :
    ((update skidStaleSounds idleCar).bind fun r =>
        (update r.1 idleCar).map fun r2 =>
          countStop Channel.skidding (r.2 ++ r2.2))
      = Except.ok 2 := by
  have hchan : Channel.engine ≠ Channel.skidding := by decide
  norm_num [hchan, update, updateV2, enginePlayingSounds, skidStaleSounds, emptySounds,
    engineFailedSounds, idleCar, movingCar, entryOrThrow, SoundTable.get,
    SoundTable.set, notPlayingGuard, playingTruthy, playSound, stopSound,
    countStart, countStop, ok_bind, error_bind, map_ok, Except.bind,
    List.countP_cons, List.countP_nil, List.countP_append]

theorem stop_idempotent_witness :
    idleCar.speed = 0 ∧ idleCar.hasCollision = false ∧
      ∃ r, updateV2Twice ⟨true, skidStaleSounds⟩ idleCar = Except.ok r ∧
        ∀ ch, countStop ch r.2 ≤ 1 :=
  ⟨rfl, rfl, stop_idempotent ⟨true, skidStaleSounds⟩ idleCar rfl rfl⟩

end AudioManager
